import Mathlib

/-
Verification of the macro-action catalog subsystem of the focused-macros
repository (source file: domains/cube/macros.py).

The puzzle-domain and formula collaborators (the `cube` and `formula`
modules) are external to the core and absent from the sources; following
the design document they are treated as parameters of the embedding, with
the few facts needed about them (the canonical move enumeration, the
length contract of random formula synthesis) modelled from the design
document and marked as such.  The Python module's stateful pieces — the
shared `random` generator and the `learned` / `random` namespaces — are
embedded by explicit state passing, and the fallible pieces return
`Except`.
-/

namespace FocusedMacros

/-- Modelled from the spec: the puzzle domain's primitive moves.  The
`cube` module is absent from the sources; the design document fixes the
primitive move set as the six face turns U, D, L, R, F, B in this
canonical enumeration order. -/
inductive Move where
  | U
  | D
  | L
  | R
  | F
  | B
  deriving DecidableEq, Repr, Fintype

/-- A concrete move sequence (a macro-action is such a sequence). -/
abbrev MoveSeq := List Move

/-- Modelled from the spec: `cube.actions`, the domain's canonical move
enumeration, exposed by the external `cube` module. -/
def cube.actions : List Move := [Move.U, Move.D, Move.L, Move.R, Move.F, Move.B]

/-- Python exceptions that the embedded code can raise or propagate. -/
inductive PyError where
  | fileNotFound
  | nameError (missing : String)
  | unpicklingError
  | synthesisError (code : Nat)
  deriving DecidableEq, Repr

/-- The `random` namespace of macros.py: seed, synthesized formulas,
flattened macro list and aligned model list, rebuilt wholesale by
`generate_random_macro_set`. -/
structure RandomCatalog (F E : Type) where
  seed : Int
  alg_formulas : List F
  macros : List MoveSeq
  models : List E
  deriving DecidableEq, Repr

/-- The `learned` namespace of macros.py: macro list and aligned model
list, rebuilt by `load_learned_macros`. -/
structure LearnedCatalog (E : Type) where
  macros : List MoveSeq
  models : List E
  deriving DecidableEq, Repr

section Core

/- Collaborator parameters: `F` is the external Formula type, `σ` the
puzzle state, `E` the opaque EffectModel, `R` the state of the shared
random-number generator. -/
variable {F σ E R α β : Type}
variable (flen : F → Nat)
variable (variations : F → List MoveSeq)
variable (simp_formula : F → F)
variable (init : σ)
variable (app : σ → MoveSeq → σ)
variable (eff : σ → E)
variable (seedFn : Int → R)
variable (random_formula : Nat → R → F × R)
variable (R_PERMUTATION SWAP_3_EDGES_FACE SWAP_3_EDGES_MID SWAP_3_CORNERS ORIENT_2_EDGES ORIENT_2_CORNERS : F)

/-- The EffectModel builder (spec 4.5): replay a sequence against a fresh
puzzle state and summarize; `cube.Cube().apply(sequence=m).summarize_effects()`. -/
def build (m : MoveSeq) : E := eff (app init m)

/-- `primitive.alg_formulas = [[a] for a in cube.actions]`. -/
def primitive.alg_formulas : List MoveSeq := cube.actions.map (fun a => [a])

/-- `primitive.actions = alg_formulas`. -/
def primitive.actions : List MoveSeq := primitive.alg_formulas

/-- `primitive.models`: one effect model per primitive action. -/
def primitive.models : List E :=
  primitive.actions.map (fun a => eff (app init a))

/-- `expert.alg_formulas`: the fixed ordered list of six named expert
formulas.  The formulas themselves live in the external `formula` module
and are opaque parameters here. -/
def expert.alg_formulas : List F :=
  [R_PERMUTATION, SWAP_3_EDGES_FACE, SWAP_3_EDGES_MID, SWAP_3_CORNERS,
   ORIENT_2_EDGES, ORIENT_2_CORNERS]

/-- `expert.macros`: all variations of all expert formulas, formula order
first, variation order within a formula second. -/
def expert.macros : List MoveSeq :=
  (expert.alg_formulas R_PERMUTATION SWAP_3_EDGES_FACE SWAP_3_EDGES_MID
      SWAP_3_CORNERS ORIENT_2_EDGES ORIENT_2_CORNERS).flatMap variations

/-- `expert.models`: one effect model per expert macro. -/
def expert.models : List E :=
  (expert.macros variations R_PERMUTATION SWAP_3_EDGES_FACE SWAP_3_EDGES_MID
      SWAP_3_CORNERS ORIENT_2_EDGES ORIENT_2_CORNERS).map
    (fun m => eff (app init m))

/-- The unbound name looked up by the handler of `FileNotFoundError` in
the source; its lookup raises `NameError`. -/
def warning_name : String := "warning"

/-- The path `results/macros/cube/`. -/
def results_dir : String := "results/macros/cube/"

/-- `results_dir + 'v' + version + '-clean_skills.pickle'`. -/
def learned_filename (version : String) : String :=
  results_dir ++ "v" ++ version ++ "-clean_skills.pickle"

/-- `load_learned_macros(version)`.  `read` stands for opening and
unpickling the file at a path (the file system is an explicit parameter).
On success the learned namespace receives the loaded macros and their
models.  On `FileNotFoundError` the source's handler calls `warning(...)`,
but `warning` is neither defined nor imported anywhere in macros.py, so
Python raises `NameError` there; any other read error propagates as is.
In every error case the learned namespace is left untouched, since the
assignments to it come after loading and model computation. -/
def load_learned_macros (read : String → Except PyError (List MoveSeq))
    (version : String) (cat : LearnedCatalog E) :
    Except PyError Unit × LearnedCatalog E :=
  let filename := learned_filename version
  match read filename with
  | .ok ms => (.ok (), { macros := ms, models := ms.map (fun m => eff (app init m)) })
  | .error .fileNotFound => (.error (.nameError warning_name), cat)
  | .error e => (.error e, cat)

/-- Sequential draws from the shared generator: run `g` on each list
element in order, threading the generator state (the list comprehension
`[formula.random_formula(len(alg)) for alg in expert.alg_formulas]`). -/
def mapState (g : α → R → β × R) : List α → R → List β × R
  | [], r => ([], r)
  | a :: as, r =>
    let p := g a r
    let q := mapState g as p.2
    (p.1 :: q.1, q.2)

/-- `generate_random_macro_set(seed)` on the success path.  The ambient
generator state is passed and returned explicitly: `old_state =
pyrandom.getstate()`, `pyrandom.seed(seed)`, the per-formula draws, then
`pyrandom.setstate(old_state)`.  Returns the final generator state and
the rebuilt `random` namespace. -/
def generate_random_macro_set (seed : Int) (rng : R) (_cat : RandomCatalog F E) :
    R × RandomCatalog F E :=
  let old_state := rng
  let r0 := seedFn seed
  let drawn := mapState (fun alg r => random_formula (flen alg) r)
      (expert.alg_formulas R_PERMUTATION SWAP_3_EDGES_FACE SWAP_3_EDGES_MID
        SWAP_3_CORNERS ORIENT_2_EDGES ORIENT_2_CORNERS) r0
  let random_formulas := drawn.1
  let ms := random_formulas.flatMap (fun f => variations (simp_formula f))
  (old_state,
   { seed := seed
     alg_formulas := random_formulas
     macros := ms
     models := ms.map (fun m => eff (app init m)) })

/-- Sequential draws where each draw may raise: the pair carries the
generator state reached so far, and a raised error aborts the remaining
draws with the state at the point of failure (Python leaves the global
generator wherever the failing call left it). -/
def mapStateE (g : α → R → Except PyError β × R) :
    List α → R → Except PyError (List β) × R
  | [], r => (.ok [], r)
  | a :: as, r =>
    match g a r with
    | (.error e, r1) => (.error e, r1)
    | (.ok b, r1) =>
      match mapStateE g as r1 with
      | (.error e, r2) => (.error e, r2)
      | (.ok bs, r2) => (.ok (b :: bs), r2)

/-- `generate_random_macro_set(seed)` with fallible formula synthesis.
If a draw raises, the exception propagates before `pyrandom.setstate`
runs, so the returned generator state is the failure-point state and the
`random` namespace keeps its prior contents (no assignment has happened
yet).  On success it behaves as the total version. -/
def generate_random_macro_setE (random_formulaE : Nat → R → Except PyError F × R)
    (seed : Int) (rng : R) (cat : RandomCatalog F E) :
    Except PyError Unit × R × RandomCatalog F E :=
  let old_state := rng
  let r0 := seedFn seed
  match mapStateE (fun alg r => random_formulaE (flen alg) r)
      (expert.alg_formulas R_PERMUTATION SWAP_3_EDGES_FACE SWAP_3_EDGES_MID
        SWAP_3_CORNERS ORIENT_2_EDGES ORIENT_2_CORNERS) r0 with
  | (.error e, rFail) => (.error e, rFail, cat)
  | (.ok random_formulas, _r1) =>
    let ms := random_formulas.flatMap (fun f => variations (simp_formula f))
    (.ok (), old_state,
     { seed := seed
       alg_formulas := random_formulas
       macros := ms
       models := ms.map (fun m => eff (app init m)) })

/-- The alignment property of a catalog: as many models as macros, and
the i-th model is the effect model built from the i-th macro. -/
def Aligned (bld : MoveSeq → E) (macs : List MoveSeq) (mods : List E) : Prop :=
  macs.length = mods.length ∧
  ∀ i (h1 : i < macs.length) (h2 : i < mods.length),
    mods.get ⟨i, h2⟩ = bld (macs.get ⟨i, h1⟩)

end Core

/- A small concrete instantiation of the collaborator parameters, used
only to evaluate the parametric theorems at concrete inputs.  Formulas,
puzzle states and effect models are all represented as move lists; the
generator state is a natural number. -/

/-- Witness instantiation: formula length. -/
def flen0 (f : List Move) : Nat := f.length

/-- Witness instantiation: two variations per formula. -/
def variations0 (f : List Move) : List MoveSeq := [f, f.reverse]

/-- Witness instantiation: simplification is the identity. -/
def simp0 (f : List Move) : List Move := f

/-- Witness instantiation: fresh puzzle state. -/
def init0 : List Move := []

/-- Witness instantiation: applying a sequence appends it to the state. -/
def app0 (s : List Move) (q : MoveSeq) : List Move := s ++ q

/-- Witness instantiation: the effect summary is the reached state. -/
def eff0 (s : List Move) : List Move := s

/-- Witness instantiation: seeding the generator. -/
def seedFn0 (s : Int) : Nat := s.natAbs + 1

/-- Witness instantiation: a draw that consumes generator state and
returns a formula of the requested length. -/
def random_formula0 (n : Nat) (r : Nat) : List Move × Nat :=
  (List.replicate n (if r % 2 = 0 then Move.U else Move.D), r + n + 1)

/-- Witness instantiation: a draw that always raises, after perturbing
the generator state. -/
def random_formulaE_fail (_n : Nat) (r : Nat) :
    Except PyError (List Move) × Nat :=
  (.error (.synthesisError 7), r + 1)

/-- Witness instantiation: a fallible draw that always succeeds. -/
def random_formulaE_ok (n : Nat) (r : Nat) :
    Except PyError (List Move) × Nat :=
  (.ok (List.replicate n Move.U), r + n + 1)

/-- Witness instantiation: the six expert formulas, as concrete lists. -/
def fRP : List Move := [Move.R, Move.U, Move.R, Move.U]

/-- Witness instantiation: second expert formula. -/
def fSEF : List Move := [Move.F, Move.U]

/-- Witness instantiation: third expert formula. -/
def fSEM : List Move := [Move.L]

/-- Witness instantiation: fourth expert formula. -/
def fSC : List Move := [Move.B, Move.D]

/-- Witness instantiation: fifth expert formula. -/
def fOE : List Move := [Move.U]

/-- Witness instantiation: sixth expert formula. -/
def fOC : List Move := [Move.D, Move.L, Move.F]

/-- Witness instantiation: a prior random catalog. -/
def rcat0 : RandomCatalog (List Move) (List Move) :=
  { seed := 42, alg_formulas := [[Move.U]], macros := [[Move.U]], models := [[Move.U]] }

/-- Witness instantiation: another prior random catalog. -/
def rcat1 : RandomCatalog (List Move) (List Move) :=
  { seed := -5, alg_formulas := [], macros := [], models := [] }

/-- Witness instantiation: a prior learned catalog. -/
def lcat0 : LearnedCatalog (List Move) :=
  { macros := [[Move.U]], models := [[Move.U]] }

/-- Witness instantiation: the default version string of the source. -/
def v04 : String := "0.4"

/-- Witness instantiation: a version with no corresponding file. -/
def v99 : String := "9.9"

/-- Witness instantiation: a file system holding one pickled macro list. -/
def read_ok (_path : String) : Except PyError (List MoveSeq) :=
  .ok [[Move.F, Move.B], [Move.L]]

/-- Witness instantiation: a file system with no file at any path. -/
def read_missing (_path : String) : Except PyError (List MoveSeq) :=
  .error .fileNotFound

/-- Witness instantiation: a file system whose file cannot be unpickled. -/
def read_corrupt (_path : String) : Except PyError (List MoveSeq) :=
  .error .unpicklingError

/-- The total random generator at the witness instantiation. -/
def gen0 (seed : Int) (rng : Nat) (cat : RandomCatalog (List Move) (List Move)) :
    Nat × RandomCatalog (List Move) (List Move) :=
  generate_random_macro_set flen0 variations0 simp0 init0 app0 eff0 seedFn0
    random_formula0 fRP fSEF fSEM fSC fOE fOC seed rng cat

/-- The fallible random generator at the witness instantiation, with the
always-failing draw. -/
def genE_fail (seed : Int) (rng : Nat) (cat : RandomCatalog (List Move) (List Move)) :
    Except PyError Unit × Nat × RandomCatalog (List Move) (List Move) :=
  generate_random_macro_setE flen0 variations0 simp0 init0 app0 eff0 seedFn0
    fRP fSEF fSEM fSC fOE fOC random_formulaE_fail seed rng cat

/-- The fallible random generator at the witness instantiation, with the
always-succeeding draw. -/
def genE_ok (seed : Int) (rng : Nat) (cat : RandomCatalog (List Move) (List Move)) :
    Except PyError Unit × Nat × RandomCatalog (List Move) (List Move) :=
  generate_random_macro_setE flen0 variations0 simp0 init0 app0 eff0 seedFn0
    fRP fSEF fSEM fSC fOE fOC random_formulaE_ok seed rng cat

/-- The learned loader at the witness instantiation. -/
def load0 (read : String → Except PyError (List MoveSeq)) (version : String)
    (cat : LearnedCatalog (List Move)) :
    Except PyError Unit × LearnedCatalog (List Move) :=
  load_learned_macros init0 app0 eff0 read version cat

section Theorems

variable {F σ E R α β : Type}
variable (flen : F → Nat)
variable (variations : F → List MoveSeq)
variable (simp_formula : F → F)
variable (init : σ)
variable (app : σ → MoveSeq → σ)
variable (eff : σ → E)
variable (seedFn : Int → R)
variable (random_formula : Nat → R → F × R)
variable (f1 f2 f3 f4 f5 f6 : F)

/-- Mapping a builder over a macro list yields an aligned model list. -/
theorem aligned_map (bld : MoveSeq → E) (macs : List MoveSeq) :
    Aligned bld macs (macs.map bld) := by
  refine ⟨(List.length_map macs bld).symm, ?_⟩
  intro i h1 h2
  simp

/-- Elements drawn by `mapState` are pointwise related to the inputs when
every single draw is. -/
theorem mapState_forall₂ (g : α → R → β × R) (P : β → α → Prop)
    (hg : ∀ a r, P (g a r).1 a) (as : List α) (r : R) :
    List.Forall₂ P (mapState g as r).1 as := by
  induction as generalizing r with
  | nil => exact List.Forall₂.nil
  | cons a as ih => exact List.Forall₂.cons (hg a r) (ih (g a r).2)

/-- Pointwise-related lists are related at every common index. -/
theorem forall₂_get {P : α → β → Prop} {l1 : List α} {l2 : List β}
    (h : List.Forall₂ P l1 l2) :
    ∀ i (h1 : i < l1.length) (h2 : i < l2.length),
      P (l1.get ⟨i, h1⟩) (l2.get ⟨i, h2⟩) := by
  induction h with
  | nil => intro i h1 _; simp at h1
  | cons hp _hf ih =>
    intro i h1 h2
    cases i with
    | zero => exact hp
    | succ j => exact ih j (Nat.lt_of_succ_lt_succ h1) (Nat.lt_of_succ_lt_succ h2)

/-- Claim C1: every catalog produced by any builder (primitive, expert,
learned loader, random generator) has as many models as macros, and its
i-th model is the effect model built from its i-th macro. -/
theorem catalogs_aligned :
    Aligned (build init app eff) primitive.actions (primitive.models init app eff) ∧
    Aligned (build init app eff) (expert.macros variations f1 f2 f3 f4 f5 f6)
      (expert.models variations init app eff f1 f2 f3 f4 f5 f6) ∧
    (∀ (read : String → Except PyError (List MoveSeq)) (version : String)
        (cat newCat : LearnedCatalog E),
        load_learned_macros init app eff read version cat = (.ok (), newCat) →
        Aligned (build init app eff) newCat.macros newCat.models) ∧
    (∀ (seed : Int) (rng : R) (cat : RandomCatalog F E),
        Aligned (build init app eff)
          (generate_random_macro_set flen variations simp_formula init app eff seedFn
            random_formula f1 f2 f3 f4 f5 f6 seed rng cat).2.macros
          (generate_random_macro_set flen variations simp_formula init app eff seedFn
            random_formula f1 f2 f3 f4 f5 f6 seed rng cat).2.models) := by
  refine ⟨aligned_map (build init app eff) primitive.actions,
    aligned_map (build init app eff) (expert.macros variations f1 f2 f3 f4 f5 f6),
    ?_,
    fun seed rng cat => aligned_map (build init app eff)
      (generate_random_macro_set flen variations simp_formula init app eff seedFn
        random_formula f1 f2 f3 f4 f5 f6 seed rng cat).2.macros⟩
  intro read version cat newCat h
  cases hread : read (learned_filename version) with
  | ok ms =>
    simp only [load_learned_macros, hread, Prod.mk.injEq] at h
    rw [← h.2]
    exact aligned_map (build init app eff) ms
  | error e =>
    cases e <;> simp [load_learned_macros, hread] at h

/-- Claim C1 witness: the alignment of a concrete loaded learned catalog,
obtained from the general theorem. -/
theorem catalogs_aligned_witness :
    Aligned (build init0 app0 eff0)
      (load0 read_ok v04 lcat0).2.macros (load0 read_ok v04 lcat0).2.models := by
  have h := catalogs_aligned flen0 variations0 simp0 init0 app0 eff0 seedFn0
    random_formula0 fRP fSEF fSEM fSC fOE fOC
  exact h.2.2.1 read_ok v04 lcat0 (load0 read_ok v04 lcat0).2 rfl

/-- Claim C2: two calls of the random generator with the same seed yield
the same seed, synthesized formulas, macro list and model list, whatever
the ambient generator state and prior catalog contents are at each call. -/
theorem generate_random_reproducible (seed : Int) (r1 r2 : R)
    (c1 c2 : RandomCatalog F E) :
    (generate_random_macro_set flen variations simp_formula init app eff seedFn
      random_formula f1 f2 f3 f4 f5 f6 seed r1 c1).2
      = (generate_random_macro_set flen variations simp_formula init app eff seedFn
        random_formula f1 f2 f3 f4 f5 f6 seed r2 c2).2 := rfl

/-- Claim C3: the ambient generator state returned by the random
generator is exactly the state it was handed, for every seed. -/
theorem generate_random_isolated (seed : Int) (rng : R) (cat : RandomCatalog F E) :
    (generate_random_macro_set flen variations simp_formula init app eff seedFn
      random_formula f1 f2 f3 f4 f5 f6 seed rng cat).1 = rng := rfl

/-- Claim C4: with no file at the constructed path, `load_learned_macros`
does not warn and set empty lists; the handler's lookup of the unbound
name held in `warning_name` raises `NameError`, which propagates with the
learned catalog untouched. -/
theorem load_learned_missing_file_raises :
    load0 read_missing v99 lcat0
      = (Except.error (PyError.nameError warning_name), lcat0) := rfl

/-- Claim C5 (amended): if formula synthesis raises partway through, the
error propagates and the prior random catalog is untouched, but the
shared generator is left in its failure-point state, not restored to its
pre-call value. -/
theorem generate_random_error_propagates
    (random_formulaE : Nat → R → Except PyError F × R) (seed : Int) (rng : R)
    (cat : RandomCatalog F E) (e : PyError)
    (h : (mapStateE (fun alg r => random_formulaE (flen alg) r)
        (expert.alg_formulas f1 f2 f3 f4 f5 f6) (seedFn seed)).1 = .error e) :
    generate_random_macro_setE flen variations simp_formula init app eff seedFn
      f1 f2 f3 f4 f5 f6 random_formulaE seed rng cat
      = (.error e, (mapStateE (fun alg r => random_formulaE (flen alg) r)
          (expert.alg_formulas f1 f2 f3 f4 f5 f6) (seedFn seed)).2, cat) := by
  rcases hm : mapStateE (fun alg r => random_formulaE (flen alg) r)
      (expert.alg_formulas f1 f2 f3 f4 f5 f6) (seedFn seed) with ⟨exc, r2⟩
  rw [hm] at h
  simp only at h
  subst h
  simp [generate_random_macro_setE, hm]

/-- Claim C5 witness: the amended behavior evaluated at a concrete
failing synthesis. -/
theorem generate_random_error_propagates_witness :
    genE_fail 5 3 rcat0 = (Except.error (PyError.synthesisError 7), 7, rcat0) := by
  have h := generate_random_error_propagates flen0 variations0 simp0 init0 app0 eff0
    seedFn0 fRP fSEF fSEM fSC fOE fOC random_formulaE_fail 5 3 rcat0
    (PyError.synthesisError 7) rfl
  exact h

/-- Claim C5 counterexample: at seed 0 with pre-call generator state 0, a
failing synthesis leaves the generator in state 2, not the pre-call state
0, while the error propagates — the claim's restoration does not hold. -/
theorem generate_random_error_not_restored :
    (genE_fail 0 0 rcat0).1 = Except.error (PyError.synthesisError 7) ∧
    (genE_fail 0 0 rcat0).2.1 ≠ 0 := ⟨rfl, by decide⟩

/-- Claim C6: the primitive catalog has exactly one singleton macro per
primitive move, without duplicates, in the canonical enumeration order,
hence six macros for the six moves. -/
theorem primitive_actions_complete :
    primitive.actions.length = 6 ∧
    primitive.actions = [[Move.U], [Move.D], [Move.L], [Move.R], [Move.F], [Move.B]] ∧
    primitive.actions.Nodup ∧
    (∀ m : Move, [m] ∈ primitive.actions) ∧
    (∀ s ∈ primitive.actions, ∃ m : Move, s = [m]) := by decide

/-- Claim C7: the random generator synthesizes one formula per expert
formula in the fixed order, each of the corresponding expert formula's
length (given the synthesis length contract), and its macro list is the
flattening, in formula order, of the variations of each simplified
synthesized formula. -/
theorem random_formulas_structure
    (hlen : ∀ n r, flen (random_formula n r).1 = n)
    (seed : Int) (rng : R) (cat : RandomCatalog F E) :
    ((generate_random_macro_set flen variations simp_formula init app eff seedFn
        random_formula f1 f2 f3 f4 f5 f6 seed rng cat).2.alg_formulas.length
      = (expert.alg_formulas f1 f2 f3 f4 f5 f6).length) ∧
    (∀ i (h1 : i < (generate_random_macro_set flen variations simp_formula init app
          eff seedFn random_formula f1 f2 f3 f4 f5 f6 seed rng
          cat).2.alg_formulas.length)
        (h2 : i < (expert.alg_formulas f1 f2 f3 f4 f5 f6).length),
        flen ((generate_random_macro_set flen variations simp_formula init app eff
            seedFn random_formula f1 f2 f3 f4 f5 f6 seed rng
            cat).2.alg_formulas.get ⟨i, h1⟩)
          = flen ((expert.alg_formulas f1 f2 f3 f4 f5 f6).get ⟨i, h2⟩)) ∧
    ((generate_random_macro_set flen variations simp_formula init app eff seedFn
        random_formula f1 f2 f3 f4 f5 f6 seed rng cat).2.macros
      = (generate_random_macro_set flen variations simp_formula init app eff seedFn
          random_formula f1 f2 f3 f4 f5 f6 seed rng cat).2.alg_formulas.flatMap
          (fun f => variations (simp_formula f))) := by
  have hf : List.Forall₂ (fun f alg => flen f = flen alg)
      ((generate_random_macro_set flen variations simp_formula init app eff seedFn
        random_formula f1 f2 f3 f4 f5 f6 seed rng cat).2.alg_formulas)
      (expert.alg_formulas f1 f2 f3 f4 f5 f6) :=
    mapState_forall₂ (fun alg r => random_formula (flen alg) r)
      (fun f alg => flen f = flen alg) (fun a r => hlen (flen a) r)
      (expert.alg_formulas f1 f2 f3 f4 f5 f6) (seedFn seed)
  exact ⟨hf.length_eq, fun i h1 h2 => forall₂_get hf i h1 h2, rfl⟩

/-- Claim C7 witness: the structure facts evaluated at a concrete
instantiation with seed 0. -/
theorem random_formulas_structure_witness :
    ((gen0 0 0 rcat0).2.alg_formulas.length
      = (expert.alg_formulas fRP fSEF fSEM fSC fOE fOC).length) ∧
    ((gen0 0 0 rcat0).2.macros
      = (gen0 0 0 rcat0).2.alg_formulas.flatMap (fun f => variations0 (simp0 f))) := by
  have h := random_formulas_structure flen0 variations0 simp0 init0 app0 eff0 seedFn0
    random_formula0 fRP fSEF fSEM fSC fOE fOC
    (fun n r => by simp [random_formula0, flen0]) 0 0 rcat0
  exact ⟨h.1, h.2.2⟩

/-- Claim C8: a rebuild of the random catalog is atomic: on failure the
prior contents are returned untouched, and on success the result is
exactly the record holding the seed, the synthesized formulas, the
flattened macro list and the aligned model list, with the ambient
generator state restored. -/
theorem random_rebuild_atomic
    (random_formulaE : Nat → R → Except PyError F × R) (seed : Int) (rng : R)
    (cat : RandomCatalog F E) :
    (∀ (e : PyError) (r' : R) (c' : RandomCatalog F E),
        generate_random_macro_setE flen variations simp_formula init app eff seedFn
          f1 f2 f3 f4 f5 f6 random_formulaE seed rng cat = (.error e, r', c') →
        c' = cat) ∧
    (∀ (r' : R) (c' : RandomCatalog F E),
        generate_random_macro_setE flen variations simp_formula init app eff seedFn
          f1 f2 f3 f4 f5 f6 random_formulaE seed rng cat = (.ok (), r', c') →
        r' = rng ∧
        ∃ fs, (mapStateE (fun alg r => random_formulaE (flen alg) r)
            (expert.alg_formulas f1 f2 f3 f4 f5 f6) (seedFn seed)).1 = .ok fs ∧
          c' = { seed := seed
                 alg_formulas := fs
                 macros := fs.flatMap (fun f => variations (simp_formula f))
                 models := (fs.flatMap (fun f => variations (simp_formula f))).map
                     (fun m => eff (app init m)) }) := by
  rcases hm : mapStateE (fun alg r => random_formulaE (flen alg) r)
      (expert.alg_formulas f1 f2 f3 f4 f5 f6) (seedFn seed) with ⟨exc, r2⟩
  cases exc with
  | error e0 =>
    constructor
    · intro e r' c' h
      simp only [generate_random_macro_setE, hm, Prod.mk.injEq] at h
      exact h.2.2.symm
    · intro r' c' h
      simp [generate_random_macro_setE, hm] at h
  | ok fs =>
    constructor
    · intro e r' c' h
      simp [generate_random_macro_setE, hm] at h
    · intro r' c' h
      simp only [generate_random_macro_setE, hm, Prod.mk.injEq] at h
      exact ⟨h.2.1.symm, fs, rfl, h.2.2.symm⟩

/-- Claim C8 witness: a concrete failing rebuild returns the prior
catalog untouched, via the general theorem. -/
theorem random_rebuild_atomic_witness :
    (genE_fail 0 0 rcat0).2.2 = rcat0 := by
  have h := random_rebuild_atomic flen0 variations0 simp0 init0 app0 eff0 seedFn0
    fRP fSEF fSEM fSC fOE fOC random_formulaE_fail 0 0 rcat0
  exact h.1 (PyError.synthesisError 7) 2 ((genE_fail 0 0 rcat0).2.2) rfl

/-- Claim C9: loading the learned catalog twice with the same version
over an unchanged file system gives the same outcome and the same learned
catalog contents as loading it once. -/
theorem load_learned_idempotent (read : String → Except PyError (List MoveSeq))
    (version : String) (cat : LearnedCatalog E) :
    load_learned_macros init app eff read version
        (load_learned_macros init app eff read version cat).2
      = load_learned_macros init app eff read version cat := by
  cases hread : read (learned_filename version) with
  | ok ms => simp [load_learned_macros, hread]
  | error e => cases e <;> simp [load_learned_macros, hread]

/-- Claim C10: a read error other than file-not-found (such as a corrupt
pickle) propagates from `load_learned_macros` and leaves the learned
catalog exactly as it was. -/
theorem load_learned_propagates_errors
    (read : String → Except PyError (List MoveSeq)) (version : String)
    (cat : LearnedCatalog E) (e : PyError) (hne : e ≠ PyError.fileNotFound)
    (hread : read (learned_filename version) = .error e) :
    load_learned_macros init app eff read version cat = (.error e, cat) := by
  cases e with
  | fileNotFound => exact absurd rfl hne
  | nameError s => simp [load_learned_macros, hread]
  | unpicklingError => simp [load_learned_macros, hread]
  | synthesisError c => simp [load_learned_macros, hread]

/-- Claim C10 witness: a concrete corrupt-file read propagates unchanged
with the learned catalog intact. -/
theorem load_learned_propagates_errors_witness :
    load0 read_corrupt v04 lcat0 = (Except.error PyError.unpicklingError, lcat0) := by
  have h := load_learned_propagates_errors init0 app0 eff0 read_corrupt v04 lcat0
    PyError.unpicklingError (by decide) rfl
  exact h

end Theorems

end FocusedMacros
